import Mathlib

/-!
Shallow embedding of the supply-chain-automation core
(src/src/routes/reorder.py and src/src/routes/forecasting.py).

Modelling conventions:
* JSON numbers (stock levels, costs, demands, trigger values) are embedded
  as rationals; Python float arithmetic on the values exercised here is
  exact decimal arithmetic, which ℚ models faithfully.
* Python `round(x, 2)` is modelled by `round2` below via Mathlib `round`
  (nearest integer, ties upward).  Python uses ties-to-even; the two agree
  except on exact half-cent ties, which occur in no statement proved here.
* Calendar days are integers (a day count); `datetime` subtraction `.days`
  becomes integer subtraction, and a date's weekday is its residue mod 7.
  Wall-clock-derived identifier strings and timestamp metadata fields
  (`created_date`, `approved_date`, `sent_date`, `expected_delivery`) carry
  no behavioural content touched by any claim and are not modelled; the
  `sent` flag stands for the presence of `sent_date`.
* Dictionary keys that may be absent (`unit_cost`, `approval_threshold`,
  snapshot entries) are `Option` with the source's `.get(k, default)`
  becoming `Option.getD`.
* Fallible routes return `Except`; a raised `ZeroDivisionError` is the
  `none` result of an `Option`-valued function.  Errors are detected before
  any mutation in the source, so the error branches return no updated state.
-/

/-- Python slice `l[-n:]` (the last `n` elements, clamped). -/
def lastN {α : Type} (l : List α) (n : Nat) : List α := l.drop (l.length - n)

/-- Python slice `l[-a:-b]` for `a > b` (clamped at both ends). -/
def sliceNeg {α : Type} (l : List α) (a b : Nat) : List α :=
  (l.take (l.length - b)).drop (l.length - a)

/-- Python `round(q, 2)`: round to two decimal places. -/
def round2 (q : ℚ) : ℚ := (round (q * 100) : ℤ) / 100

/-! ### Reorder rules and orders (src/src/routes/reorder.py) -/

structure ReorderRule where
  rule_id : String
  product_id : String
  product_name : String
  trigger_type : String
  trigger_value : ℚ
  reorder_quantity : Nat
  supplier_id : String
  max_cost : ℚ
  unit_cost : Option ℚ
  approval_required : Bool
  approval_threshold : Option ℚ
  lead_time_days : Nat
  safety_stock : ℚ
  seasonal_adjustment : Bool
  status : String
  last_triggered : Option ℤ
  total_triggers : Nat

structure Order where
  rule_id : String
  product_id : String
  product_name : String
  supplier_id : String
  quantity : ℚ
  estimated_cost : ℚ
  trigger_reason : String
  status : String
  priority : String
  approved_by : Option String
  approval_notes : Option String
  rejected_by : Option String
  rejection_reason : Option String
  sent : Bool

/-- Python `'stockout' in s.lower()` (substring containment). -/
def mentions_stockout (s : String) : Bool :=
  (List.range (s.toLower.data.length + 1)).any
    (fun i => ("stockout".data).isPrefixOf (s.toLower.data.drop i))

/-- Approval policy of `create_reorder` (reorder.py lines 376-382):
`estimated_cost > approval_threshold` with defaults 0 and 1000. -/
def requires_approval (rule : ReorderRule) (quantity : ℚ) : Bool :=
  rule.approval_required ||
    decide (quantity * rule.unit_cost.getD 0 > rule.approval_threshold.getD 1000)

/-- Order dict as first constructed in `create_reorder` (lines 384-397). -/
def build_reorder (rule : ReorderRule) (quantity : ℚ) (trigger_reason : String) : Order :=
  { rule_id := rule.rule_id
    product_id := rule.product_id
    product_name := rule.product_name
    supplier_id := rule.supplier_id
    quantity := quantity
    estimated_cost := quantity * rule.unit_cost.getD 0
    trigger_reason := trigger_reason
    status := if requires_approval rule quantity then "pending_approval" else "approved"
    priority := if mentions_stockout trigger_reason then "high" else "medium"
    approved_by := none
    approval_notes := none
    rejected_by := none
    rejection_reason := none
    sent := false }

/-- The helper `send_order_to_supplier` (lines 408-414). -/
def send_order_to_supplier (o : Order) : Order :=
  { o with status := "sent_to_supplier", sent := true }

/-- The helper `create_reorder` (lines 371-406): build the order and, when no
approval is required, immediately send it to the supplier in the same call. -/
def create_reorder (rule : ReorderRule) (quantity : ℚ) (trigger_reason : String) : Order :=
  let order := build_reorder rule quantity trigger_reason
  if requires_approval rule quantity then order else send_order_to_supplier order

inductive ReorderApprovalError where
  | notFound
  | notPendingApproval
deriving DecidableEq

/-- Route `approve_order` (lines 256-289), at the level of a single looked-up
order: the status guard runs before any mutation, so the error branch
returns no updated order. -/
def approve_order (o : Order) (approved_by : String) (notes : String) :
    Except ReorderApprovalError Order :=
  if o.status ≠ "pending_approval" then Except.error ReorderApprovalError.notPendingApproval
  else
    Except.ok (send_order_to_supplier
      { o with status := "approved", approved_by := some approved_by,
               approval_notes := some notes })

/-- Route `reject_order` (lines 291-318), same guard-before-mutation shape. -/
def reject_order (o : Order) (rejected_by : String) (reason : String) :
    Except ReorderApprovalError Order :=
  if o.status ≠ "pending_approval" then Except.error ReorderApprovalError.notPendingApproval
  else
    Except.ok { o with status := "rejected", rejected_by := some rejected_by,
                       rejection_reason := some reason }

/-! ### Trigger evaluation (reorder.py `check_reorder_triggers`, lines 162-238) -/

structure StockInfo where
  current_stock : Option ℚ
  predicted_demand : Option ℚ

/-- Python `inventory_data.get(product_id, {})`: lookup with empty-dict default. -/
def inventory_entry (inv : List (String × StockInfo)) (pid : String) : StockInfo :=
  match inv.find? (fun p => p.1 == pid) with
  | some p => p.2
  | none => { current_stock := none, predicted_demand := none }

/-- Trigger-condition test of `check_reorder_triggers` (lines 178-208), for one
rule.  Returns the trigger reason when the rule fires.  `now` is the current
day (`datetime.utcnow()`); missing snapshot keys default to 0. -/
def eval_trigger (now : ℤ) (inv : List (String × StockInfo)) (rule : ReorderRule) :
    Option String :=
  if rule.trigger_type = "threshold" then
    let current_stock := (inventory_entry inv rule.product_id).current_stock.getD 0
    if current_stock ≤ rule.trigger_value then
      some ("Stock level (" ++ toString current_stock ++ ") below threshold ("
        ++ toString rule.trigger_value ++ ")")
    else none
  else if rule.trigger_type = "time_based" then
    match rule.last_triggered with
    | some last =>
      let days_since : ℤ := now - last
      if ((days_since : ℚ)) ≥ rule.trigger_value then
        some ("Time-based trigger: " ++ toString days_since ++ " days since last order")
      else none
    | none => some "First time trigger"
  else if rule.trigger_type = "demand_forecast" then
    let entry := inventory_entry inv rule.product_id
    let predicted_demand := entry.predicted_demand.getD 0
    let current_stock := entry.current_stock.getD 0
    if current_stock < predicted_demand then
      some ("Current stock (" ++ toString current_stock ++ ") below predicted demand ("
        ++ toString predicted_demand ++ ")")
    else none
  else none

/-- Reorder-quantity computation on fire (lines 211-218).  `month` is the
current calendar month; Python `int(reorder_qty * 1.5)` truncates toward
zero, which for a natural quantity is the natural division `3 * q / 2`. -/
def seasonal_quantity (month : Nat) (rule : ReorderRule) : Nat :=
  if rule.seasonal_adjustment ∧ (month = 11 ∨ month = 12 ∨ month = 1) then
    3 * rule.reorder_quantity / 2
  else rule.reorder_quantity

/-- Per-rule body of the `check_reorder_triggers` loop (lines 171-226): skip
inactive rules; on fire create the reorder and stamp `last_triggered` /
`total_triggers` on the rule.  Returns the (possibly updated) rule and the
created order, if any. -/
def evaluate_rule (now : ℤ) (month : Nat) (inv : List (String × StockInfo))
    (rule : ReorderRule) : ReorderRule × Option Order :=
  if rule.status ≠ "active" then (rule, none)
  else
    match eval_trigger now inv rule with
    | none => (rule, none)
    | some trigger_reason =>
      let reorder_qty := seasonal_quantity month rule
      let order := create_reorder rule (reorder_qty : ℚ) trigger_reason
      ({ rule with last_triggered := some now, total_triggers := rule.total_triggers + 1 },
       some order)

/-- Route `check_reorder_triggers` over the whole rule list: the updated rules
in input order, and the orders created this call. -/
def check_reorder_triggers (now : ℤ) (month : Nat) (inv : List (String × StockInfo))
    (rules : List ReorderRule) : List ReorderRule × List Order :=
  let results := rules.map (evaluate_rule now month inv)
  (results.map Prod.fst, results.filterMap Prod.snd)

/-! ### Historical series (forecasting.py `add_historical_data`, lines 102-149) -/

structure HistoricalRecord where
  date : ℤ
  demand : ℚ
  sales : ℚ
  price : ℚ
  promotions : Bool

/-- Route `add_historical_data` (lines 113-138) on one product's series:
append the new record, drop records older than the 365-day window
(`record.date > utcnow - 365 days`), then stable-sort by date.  Python
`list.sort` is a stable merge sort, modelled by `List.mergeSort`. -/
def add_historical_data (now : ℤ) (series : List HistoricalRecord)
    (record : HistoricalRecord) : List HistoricalRecord :=
  let appended := series ++ [record]
  let pruned := appended.filter (fun r => decide (now - 365 < r.date))
  pruned.mergeSort (fun a b => decide (a.date ≤ b.date))

/-! ### Forecast engine (forecasting.py `generate_demand_forecast`, lines 330-414) -/

structure DailyForecastEntry where
  day_offset : Nat
  predicted_demand : ℚ

structure ForecastResult where
  predicted_demand : ℚ
  confidence_level : Nat
  trend_direction : String
  seasonal_factor : ℚ
  daily_forecast : List DailyForecastEntry
  model_used : String
  accuracy_score : ℚ

/-- Weekday of a calendar day (day counts are anchored so that the weekday is
the residue mod 7). -/
def weekday (d : ℤ) : Nat := (d % 7).toNat

/-- Working window `demands = [r['demand'] for r in historical[-30:]]` (line 334). -/
def working_demands (historical : List HistoricalRecord) : List ℚ :=
  (lastN historical 30).map (fun r => r.demand)

/-- 7-day moving average `sum(demands[-7:]) / 7` (line 340). -/
def moving_average (demands : List ℚ) : ℚ := (lastN demands 7).sum / 7

/-- Daily trend (lines 343-348): difference of the last-7 and prior-7 means
over 7, when at least 14 points exist. -/
def trend_of (demands : List ℚ) : ℚ :=
  if 14 ≤ demands.length then
    ((lastN demands 7).sum / 7 - (sliceNeg demands 14 7).sum / 7) / 7
  else 0

/-- Seasonal weekday factor (lines 350-365): over the last 14 records, the
mean demand of today's weekday divided by the overall mean floored at 1;
1 when fewer than 14 records or no record falls on today's weekday. -/
def seasonal_factor_of (current_day : Nat) (historical : List HistoricalRecord)
    (demands : List ℚ) : ℚ :=
  if 14 ≤ demands.length then
    let same_day := (lastN historical 14).filter (fun r => weekday r.date == current_day)
    if same_day.length ≠ 0 then
      ((same_day.map (fun r => r.demand)).sum / same_day.length)
        / max ((lastN demands 14).sum / 14) 1
    else 1
  else 1

/-- Raw per-day forecast value (lines 371-381): baseline plus trend, a 0.8
multiplier on weekend offsets, the seasonal factor, clamped at 0. -/
def daily_value (ma trend seasonal : ℚ) (current_day day : Nat) : ℚ :=
  let base := ma + trend * day
  let base := if (current_day + day) % 7 = 5 ∨ (current_day + day) % 7 = 6
    then base * (8 / 10) else base
  max 0 (base * seasonal)

/-- The helper `generate_demand_forecast` (lines 330-414).  `current_day` is
today's weekday.  Fails when the working window has fewer than 7 points. -/
def generate_demand_forecast (current_day : Nat) (historical : List HistoricalRecord)
    (forecast_period : Nat) : Except String ForecastResult :=
  let demands := working_demands historical
  if demands.length < 7 then Except.error "Insufficient data for forecasting"
  else
    let ma := moving_average demands
    let trend := trend_of demands
    let seasonal := seasonal_factor_of current_day historical demands
    let daily_forecast := (List.range forecast_period).map
      (fun day =>
        { day_offset := day
          predicted_demand := round2 (daily_value ma trend seasonal current_day day) })
    let total_predicted := (daily_forecast.map (fun e => e.predicted_demand)).sum
    Except.ok
      { predicted_demand := round2 total_predicted
        confidence_level := min 95 (60 + demands.length * 2)
        trend_direction :=
          if trend > 1 / 10 then "increasing"
          else if trend < -(1 / 10) then "decreasing"
          else "stable"
        seasonal_factor := round2 seasonal
        daily_forecast := daily_forecast
        model_used := "moving_average_with_trend"
        accuracy_score := 0 }

/-! ### Accuracy tracker (forecasting.py lines 283-328 and 432-449) -/

structure StoredForecast where
  product_id : String
  predicted_demand : ℚ
  accuracy_score : ℚ
  actual_demand : Option ℚ
  forecast_error : Option ℚ
  percentage_error : Option ℚ

structure AccuracyMetrics where
  predicted_demand : ℚ
  actual_demand : ℚ
  forecast_error : ℚ
  percentage_error : ℚ
  accuracy_score : ℚ

/-- Route `update_forecast_accuracy` (lines 297-324) on the looked-up
forecast: computes the error metrics, mutates the stored forecast, and
returns the metrics (percentage error and accuracy rounded to 2 decimals). -/
def update_forecast_accuracy (forecast : StoredForecast) (actual_demand : ℚ) :
    StoredForecast × AccuracyMetrics :=
  let error := |forecast.predicted_demand - actual_demand|
  let percentage_error := error / max actual_demand 1 * 100
  let accuracy := max 0 (100 - percentage_error)
  ({ forecast with
      actual_demand := some actual_demand
      forecast_error := some error
      percentage_error := some (round2 percentage_error)
      accuracy_score := round2 accuracy },
   { predicted_demand := forecast.predicted_demand
     actual_demand := actual_demand
     forecast_error := error
     percentage_error := round2 percentage_error
     accuracy_score := round2 accuracy })

/-- The helper `calculate_accuracy_trend` (lines 432-449) over the forecast
store in insertion order.  `none` models the `ZeroDivisionError` Python
raises when the divisor `min(5, len - 5)` is zero (`len - 5` is Python
integer arithmetic, hence the `ℤ` divisor). -/
def calculate_accuracy_trend (store : List StoredForecast) : Option String :=
  let recent := store.filter (fun f => decide (f.accuracy_score > 0))
  if recent.length < 2 then some "insufficient_data"
  else
    let recent_accuracy :=
      ((lastN recent 5).map (fun f => f.accuracy_score)).sum
        / ((min 5 (recent.length : ℤ) : ℤ) : ℚ)
    let older_divisor : ℤ := min 5 ((recent.length : ℤ) - 5)
    if older_divisor = 0 then none
    else
      let older_accuracy :=
        ((sliceNeg recent 10 5).map (fun f => f.accuracy_score)).sum
          / ((older_divisor : ℤ) : ℚ)
      some (if recent_accuracy > older_accuracy + 5 then "improving"
        else if recent_accuracy < older_accuracy - 5 then "declining"
        else "stable")

/-! ### Claim C1: approval policy of order creation -/

/-- C1: for every rule and quantity, `requires_approval` is
`approval_required OR quantity * unit_cost > approval_threshold` (defaults 0
and 1000); the order's initial status is `pending_approval` exactly when
approval is required, otherwise the order leaves `create_reorder` with status
`sent_to_supplier`; hence a rule with `approval_required = false` and cost at
most the threshold never yields a `pending_approval` order. -/
theorem create_reorder_approval_policy (rule : ReorderRule) (quantity : ℚ)
    (trigger_reason : String) :
    (requires_approval rule quantity = true ↔
      (rule.approval_required = true ∨
        quantity * rule.unit_cost.getD 0 > rule.approval_threshold.getD 1000))
    ∧ ((build_reorder rule quantity trigger_reason).status = "pending_approval" ↔
        requires_approval rule quantity = true)
    ∧ (create_reorder rule quantity trigger_reason).status =
        (if requires_approval rule quantity then "pending_approval" else "sent_to_supplier")
    ∧ (rule.approval_required = false →
        quantity * rule.unit_cost.getD 0 ≤ rule.approval_threshold.getD 1000 →
        (build_reorder rule quantity trigger_reason).status ≠ "pending_approval"
        ∧ (create_reorder rule quantity trigger_reason).status = "sent_to_supplier") := by
  have hreq : requires_approval rule quantity = true ↔
      (rule.approval_required = true ∨
        quantity * rule.unit_cost.getD 0 > rule.approval_threshold.getD 1000) := by
    simp [requires_approval]
  refine ⟨hreq, ?_, ?_, ?_⟩
  · cases h : requires_approval rule quantity <;>
      simp [build_reorder, h]
  · cases h : requires_approval rule quantity <;>
      simp [create_reorder, build_reorder, send_order_to_supplier, h]
  · intro h1 h2
    have hfalse : requires_approval rule quantity = false := by
      simp [requires_approval, h1]
      exact h2
    constructor
    · simp [build_reorder, hfalse]
    · simp [create_reorder, build_reorder, send_order_to_supplier, hfalse]

/-- Demonstration rule for C1: no approval flag, unit cost 10, threshold 1000. -/
def c1_ruleW : ReorderRule :=
  { rule_id := "rule_1", product_id := "P1", product_name := "", trigger_type := "threshold",
    trigger_value := 10, reorder_quantity := 5, supplier_id := "", max_cost := 0,
    unit_cost := some 10, approval_required := false, approval_threshold := some 1000,
    lead_time_days := 7, safety_stock := 0, seasonal_adjustment := false, status := "active",
    last_triggered := none, total_triggers := 0 }

/-- Witness for C1 at quantity 5: cost 50 stays below the threshold and the
order goes straight to `sent_to_supplier`. -/
theorem create_reorder_approval_policy_witness :
    c1_ruleW.approval_required = false
    ∧ (5 : ℚ) * c1_ruleW.unit_cost.getD 0 ≤ c1_ruleW.approval_threshold.getD 1000
    ∧ (create_reorder c1_ruleW 5 "manual_trigger").status = "sent_to_supplier" :=
  ⟨rfl, by norm_num [c1_ruleW],
    ((create_reorder_approval_policy c1_ruleW 5 "manual_trigger").2.2.2 rfl
      (by norm_num [c1_ruleW])).2⟩

/-! ### Claim C4: approval lifecycle and rejection terminality -/

/-- C4: `approve_order` and `reject_order` fail with `notPendingApproval`
without touching the order unless its status is exactly `pending_approval`
(the guard precedes every mutation, so the error branch returns no updated
order); successful approval runs the send-to-supplier path and ends at
`sent_to_supplier`; successful rejection ends at `rejected`; and rejection is
terminal: approving a just-rejected order fails with `notPendingApproval`. -/
theorem approval_lifecycle (o : Order) (approver notes rejecter why : String) :
    (o.status ≠ "pending_approval" →
      approve_order o approver notes = Except.error ReorderApprovalError.notPendingApproval
      ∧ reject_order o rejecter why = Except.error ReorderApprovalError.notPendingApproval)
    ∧ (o.status = "pending_approval" →
      (∀ o2, approve_order o approver notes = Except.ok o2 →
        o2 = send_order_to_supplier
          { o with status := "approved", approved_by := some approver,
                   approval_notes := some notes }
        ∧ o2.status = "sent_to_supplier")
      ∧ (∀ o2, reject_order o rejecter why = Except.ok o2 → o2.status = "rejected"))
    ∧ (∀ o2, reject_order o rejecter why = Except.ok o2 →
      approve_order o2 approver notes = Except.error ReorderApprovalError.notPendingApproval) := by
  refine ⟨?_, ?_, ?_⟩
  · intro h
    constructor
    · simp [approve_order, h]
    · simp [reject_order, h]
  · intro h
    constructor
    · intro o2 h2
      rw [approve_order] at h2
      simp [h] at h2
      exact ⟨h2.symm, by rw [← h2]; rfl⟩
    · intro o2 h2
      rw [reject_order] at h2
      simp [h] at h2
      rw [← h2]
  · intro o2 h2
    rw [reject_order] at h2
    by_cases h : o.status = "pending_approval"
    · simp [h] at h2
      rw [← h2]
      simp [approve_order]
    · simp [h] at h2

/-- Demonstration order for C4, sitting in `pending_approval`. -/
def c4_orderW : Order :=
  { rule_id := "rule_1", product_id := "P1", product_name := "", supplier_id := "",
    quantity := 200, estimated_cost := 2000, trigger_reason := "manual_trigger",
    status := "pending_approval", priority := "medium", approved_by := none,
    approval_notes := none, rejected_by := none, rejection_reason := none, sent := false }

/-- Rejected form of the demonstration order, as `reject_order` produces it. -/
def c4_rejectedW : Order :=
  { c4_orderW with
    status := "rejected"
    rejected_by := some "ops"
    rejection_reason := some "over budget" }

/-- Approved-and-sent form of the demonstration order. -/
def c4_approvedW : Order :=
  send_order_to_supplier
    { c4_orderW with
      status := "approved"
      approved_by := some "ops"
      approval_notes := some "" }

/-- Witness for C4: approving the pending order ends at `sent_to_supplier`,
and approving it after a rejection fails with `notPendingApproval`. -/
theorem approval_lifecycle_witness :
    approve_order c4_orderW "ops" "" = Except.ok c4_approvedW
    ∧ c4_approvedW.status = "sent_to_supplier"
    ∧ approve_order c4_rejectedW "ops" "" =
      Except.error ReorderApprovalError.notPendingApproval :=
  ⟨rfl,
   (((approval_lifecycle c4_orderW "ops" "" "ops" "over budget").2.1 rfl).1
     c4_approvedW rfl).2,
   ((approval_lifecycle c4_orderW "ops" "" "ops" "over budget").2.2 c4_rejectedW rfl)⟩

/-! ### Claim C9: missing snapshot entry defaults to stock 0 -/

/-- C9: for an active threshold rule whose product is absent from the
inventory snapshot, `current_stock` defaults to 0, so the rule fires exactly
when its trigger value is non-negative, and the evaluation is identical to a
snapshot that lists the product with stock level 0. -/
theorem threshold_missing_product_defaults_zero (now : ℤ)
    (inv : List (String × StockInfo)) (rule : ReorderRule)
    (htype : rule.trigger_type = "threshold")
    (hmiss : inv.find? (fun p => p.1 == rule.product_id) = none) :
    ((eval_trigger now inv rule).isSome = true ↔ 0 ≤ rule.trigger_value)
    ∧ eval_trigger now inv rule =
        eval_trigger now
          [(rule.product_id, { current_stock := some 0, predicted_demand := none })] rule := by
  have h1 : inventory_entry inv rule.product_id =
      { current_stock := none, predicted_demand := none } := by
    simp [inventory_entry, hmiss]
  have h2 : inventory_entry
      [(rule.product_id, { current_stock := some 0, predicted_demand := none })]
      rule.product_id = { current_stock := some 0, predicted_demand := none } := by
    simp [inventory_entry, List.find?]
  constructor
  · by_cases h : (0 : ℚ) ≤ rule.trigger_value <;>
      simp [eval_trigger, htype, h1, h]
  · simp [eval_trigger, htype, h1, h2]

/-- Demonstration rule for C9: active threshold rule, trigger value 0. -/
def c9_ruleW : ReorderRule :=
  { rule_id := "rule_9", product_id := "P9", product_name := "", trigger_type := "threshold",
    trigger_value := 0, reorder_quantity := 5, supplier_id := "", max_cost := 0,
    unit_cost := none, approval_required := false, approval_threshold := some 1000,
    lead_time_days := 7, safety_stock := 0, seasonal_adjustment := false, status := "active",
    last_triggered := none, total_triggers := 0 }

/-- Witness for C9: with an empty snapshot the rule fires. -/
theorem threshold_missing_product_defaults_zero_witness :
    (eval_trigger 0 [] c9_ruleW).isSome = true :=
  (threshold_missing_product_defaults_zero 0 [] c9_ruleW rfl rfl).1.mpr le_rfl

/-! ### Claim C10: frame of one trigger-evaluation step -/

/-- C10: within one evaluation call, a rule that does not fire is returned
unchanged, and a rule that fires is changed only in `last_triggered` (set to
the evaluation time) and `total_triggers` (incremented by exactly one); every
other field is preserved. -/
theorem rule_frame_on_evaluation (now : ℤ) (month : Nat)
    (inv : List (String × StockInfo)) (rule : ReorderRule) :
    ((evaluate_rule now month inv rule).2 = none →
      (evaluate_rule now month inv rule).1 = rule)
    ∧ (∀ o, (evaluate_rule now month inv rule).2 = some o →
      (evaluate_rule now month inv rule).1.rule_id = rule.rule_id
      ∧ (evaluate_rule now month inv rule).1.product_id = rule.product_id
      ∧ (evaluate_rule now month inv rule).1.product_name = rule.product_name
      ∧ (evaluate_rule now month inv rule).1.trigger_type = rule.trigger_type
      ∧ (evaluate_rule now month inv rule).1.trigger_value = rule.trigger_value
      ∧ (evaluate_rule now month inv rule).1.reorder_quantity = rule.reorder_quantity
      ∧ (evaluate_rule now month inv rule).1.supplier_id = rule.supplier_id
      ∧ (evaluate_rule now month inv rule).1.max_cost = rule.max_cost
      ∧ (evaluate_rule now month inv rule).1.unit_cost = rule.unit_cost
      ∧ (evaluate_rule now month inv rule).1.approval_required = rule.approval_required
      ∧ (evaluate_rule now month inv rule).1.approval_threshold = rule.approval_threshold
      ∧ (evaluate_rule now month inv rule).1.lead_time_days = rule.lead_time_days
      ∧ (evaluate_rule now month inv rule).1.safety_stock = rule.safety_stock
      ∧ (evaluate_rule now month inv rule).1.seasonal_adjustment = rule.seasonal_adjustment
      ∧ (evaluate_rule now month inv rule).1.status = rule.status
      ∧ (evaluate_rule now month inv rule).1.last_triggered = some now
      ∧ (evaluate_rule now month inv rule).1.total_triggers = rule.total_triggers + 1) := by
  by_cases hs : rule.status ≠ "active"
  · constructor
    · intro _
      simp [evaluate_rule, hs]
    · intro o ho
      simp [evaluate_rule, hs] at ho
  · cases ht : eval_trigger now inv rule with
    | none =>
      constructor
      · intro _
        simp [evaluate_rule, hs, ht]
      · intro o ho
        simp [evaluate_rule, hs, ht] at ho
    | some reason =>
      constructor
      · intro hnone
        simp [evaluate_rule, hs, ht] at hnone
      · intro o ho
        simp [evaluate_rule, hs, ht]

/-- Demonstration rules for C10: one inactive, one that fires on an empty
snapshot. -/
def c10_inactiveW : ReorderRule :=
  { c9_ruleW with rule_id := "rule_10a", status := "inactive" }

def c10_ruleW : ReorderRule :=
  { c9_ruleW with rule_id := "rule_10b", total_triggers := 3 }

def c10_orderW : Order :=
  ((evaluate_rule 0 5 [] c10_ruleW).2).getD (build_reorder c10_ruleW 0 "")

/-- Witness for C10: the inactive rule comes back unchanged, the firing rule
gains exactly one trigger and the new `last_triggered` stamp. -/
theorem rule_frame_on_evaluation_witness :
    (evaluate_rule 0 5 [] c10_inactiveW).1 = c10_inactiveW
    ∧ (evaluate_rule 0 5 [] c10_ruleW).1.total_triggers = c10_ruleW.total_triggers + 1
    ∧ (evaluate_rule 0 5 [] c10_ruleW).1.last_triggered = some 0 := by
  have hsome : (evaluate_rule 0 5 [] c10_ruleW).2 = some c10_orderW := rfl
  have hnone : (evaluate_rule 0 5 [] c10_inactiveW).2 = none := rfl
  refine ⟨(rule_frame_on_evaluation 0 5 [] c10_inactiveW).1 hnone, ?_, ?_⟩
  · exact ((rule_frame_on_evaluation 0 5 [] c10_ruleW).2 c10_orderW hsome).2.2.2.2.2.2.2.2.2.2.2.2.2.2.2.2
  · exact ((rule_frame_on_evaluation 0 5 [] c10_ruleW).2 c10_orderW hsome).2.2.2.2.2.2.2.2.2.2.2.2.2.2.2.1

/-! ### Claim C2: seasonal quantity adjustment (corrected: truncation) -/

/-- Quantity recorded on an order equals the quantity passed in. -/
theorem create_reorder_quantity (rule : ReorderRule) (q : ℚ) (reason : String) :
    (create_reorder rule q reason).quantity = q := by
  rw [create_reorder]
  split <;> simp [build_reorder, send_order_to_supplier]

/-- Demonstration rule for C2: active threshold rule with seasonal
adjustment and reorder quantity 5 (an odd quantity exposes the truncation). -/
def c2_ruleW : ReorderRule :=
  { rule_id := "rule_2", product_id := "P2", product_name := "", trigger_type := "threshold",
    trigger_value := 0, reorder_quantity := 5, supplier_id := "", max_cost := 0,
    unit_cost := none, approval_required := false, approval_threshold := some 1000,
    lead_time_days := 7, safety_stock := 0, seasonal_adjustment := true, status := "active",
    last_triggered := none, total_triggers := 0 }

def c2_orderW : Order :=
  ((evaluate_rule 0 11 [] c2_ruleW).2).getD (build_reorder c2_ruleW 0 "")

/-- Counterexample to C2 as stated: in November the rule with quantity 5
emits an order for 7 units (Python `int(5 * 1.5) = 7` truncates), whereas
rounding 5 × 1.5 to the nearest integer gives 8. -/
theorem seasonal_rounding_counterexample :
    ((evaluate_rule 0 11 [] c2_ruleW).2.map (fun o => o.quantity)) = some 7
    ∧ round ((c2_ruleW.reorder_quantity : ℚ) * (3 / 2)) = 8 := by
  constructor
  · have hsome : (evaluate_rule 0 11 [] c2_ruleW).2 = some c2_orderW := rfl
    rw [hsome]
    rw [show Option.map (fun o => o.quantity) (some c2_orderW) = some c2_orderW.quantity from rfl]
    have hq : c2_orderW.quantity = ((seasonal_quantity 11 c2_ruleW : ℕ) : ℚ) := by
      have : c2_orderW = create_reorder c2_ruleW ((seasonal_quantity 11 c2_ruleW : ℕ) : ℚ)
          ("Stock level (" ++ toString ((0 : ℚ)) ++ ") below threshold ("
            ++ toString c2_ruleW.trigger_value ++ ")") := rfl
      rw [this, create_reorder_quantity]
    rw [hq]
    norm_num [seasonal_quantity, c2_ruleW]
  · norm_num [c2_ruleW, round_eq]

/-- C2 amended: on fire, when `seasonal_adjustment` is set and the month is
November, December, or January, the emitted quantity is the reorder quantity
multiplied by 1.5 and truncated to an integer (the floor, `⌊q × 3/2⌋`), not
rounded to the nearest; otherwise the quantity is unchanged. -/
theorem seasonal_quantity_on_fire (now : ℤ) (month : Nat)
    (inv : List (String × StockInfo)) (rule : ReorderRule) (o : Order)
    (hfire : (evaluate_rule now month inv rule).2 = some o) :
    (rule.seasonal_adjustment = true ∧ (month = 11 ∨ month = 12 ∨ month = 1) →
      o.quantity = ((3 * rule.reorder_quantity / 2 : ℕ) : ℚ)
      ∧ o.quantity = ((⌊(rule.reorder_quantity : ℚ) * (3 / 2)⌋₊ : ℕ) : ℚ))
    ∧ (¬(rule.seasonal_adjustment = true ∧ (month = 11 ∨ month = 12 ∨ month = 1)) →
      o.quantity = (rule.reorder_quantity : ℚ)) := by
  have hq : o.quantity = ((seasonal_quantity month rule : ℕ) : ℚ) := by
    rw [evaluate_rule] at hfire
    split at hfire
    · simp at hfire
    · cases ht : eval_trigger now inv rule with
      | none => rw [ht] at hfire; simp at hfire
      | some reason =>
        rw [ht] at hfire
        simp only [Option.some_inj] at hfire
        rw [← hfire, create_reorder_quantity]
  have hfloor : (⌊(rule.reorder_quantity : ℚ) * (3 / 2)⌋₊ : ℕ) =
      3 * rule.reorder_quantity / 2 := by
    rw [show ((rule.reorder_quantity : ℚ) * (3 / 2)) =
      ((3 * rule.reorder_quantity : ℕ) : ℚ) / ((2 : ℕ) : ℚ) by push_cast; ring]
    rw [Rat.natFloor_natCast_div_natCast]
  constructor
  · intro hcond
    rw [hq, seasonal_quantity, if_pos]
    · exact ⟨rfl, by rw [hfloor]⟩
    · exact hcond
  · intro hcond
    rw [hq, seasonal_quantity, if_neg hcond]

/-- Witness for the amended C2: the November order over quantity 5 carries
`3 * 5 / 2 = 7` units. -/
theorem seasonal_quantity_on_fire_witness :
    c2_orderW.quantity = ((3 * c2_ruleW.reorder_quantity / 2 : ℕ) : ℚ) :=
  ((seasonal_quantity_on_fire 0 11 [] c2_ruleW c2_orderW rfl).1 ⟨rfl, Or.inl rfl⟩).1

/-! ### Claim C3: historical-series invariant (corrected: no per-day dedup) -/

/-- Records for C3: two appends on the same calendar day. -/
def c3_r1 : HistoricalRecord :=
  { date := 999, demand := 1, sales := 0, price := 0, promotions := false }

def c3_r2 : HistoricalRecord :=
  { date := 999, demand := 2, sales := 0, price := 0, promotions := false }

/-- Evaluation: appending to the empty series keeps the fresh record. -/
theorem c3_eval1 : add_historical_data 1000 [] c3_r1 = [c3_r1] := by
  rw [add_historical_data]
  simp [c3_r1]

/-- Evaluation: appending a second record dated the same day keeps both. -/
theorem c3_eval2 : add_historical_data 1000 [c3_r1] c3_r2 = [c3_r1, c3_r2] := by
  rw [add_historical_data]
  have hfilter : ([c3_r1] ++ [c3_r2]).filter (fun r => decide ((1000 : ℤ) - 365 < r.date))
      = [c3_r1, c3_r2] := by
    simp [c3_r1, c3_r2]
  rw [hfilter]
  exact List.mergeSort_of_sorted (by simp [c3_r1, c3_r2])

/-- Counterexample to C3 as stated: appending two records for the same
calendar day leaves both in the series — there is no per-day dedup and the
earlier write survives, so "at most one record per calendar day, last write
wins" fails. -/
theorem series_duplicate_date_counterexample :
    add_historical_data 1000 (add_historical_data 1000 [] c3_r1) c3_r2 = [c3_r1, c3_r2]
    ∧ c3_r1.date = c3_r2.date
    ∧ c3_r1.demand ≠ c3_r2.demand := by
  refine ⟨?_, rfl, by norm_num [c3_r1, c3_r2]⟩
  rw [c3_eval1, c3_eval2]

/-- C3 amended: after every append the product's series is sorted ascending
by date and consists exactly of the records of the appended series whose
date lies inside the rolling 365-day window; duplicate calendar days are all
retained (the code performs no per-day dedup, so "last write wins" does not
hold — see the counterexample). -/
theorem add_historical_data_window_sorted (now : ℤ) (series : List HistoricalRecord)
    (record : HistoricalRecord) :
    List.Sorted (fun a b : HistoricalRecord => a.date ≤ b.date)
        (add_historical_data now series record)
    ∧ (∀ r ∈ add_historical_data now series record, now - 365 < r.date)
    ∧ List.Perm (add_historical_data now series record)
        ((series ++ [record]).filter (fun r => decide (now - 365 < r.date))) := by
  refine ⟨?_, ?_, ?_⟩
  · have h := @List.sorted_mergeSort HistoricalRecord
      (fun a b : HistoricalRecord => decide (a.date ≤ b.date))
      (fun a b c hab hbc => by
        simp only [decide_eq_true_eq] at hab hbc ⊢
        exact le_trans hab hbc)
      (fun a b => by
        simp only [Bool.or_eq_true, decide_eq_true_eq]
        exact le_total a.date b.date)
      ((series ++ [record]).filter (fun r => decide (now - 365 < r.date)))
    exact h.imp (fun hab => of_decide_eq_true hab)
  · intro r hr
    rw [add_historical_data] at hr
    rw [List.mem_mergeSort] at hr
    exact of_decide_eq_true (List.mem_filter.mp hr).2
  · exact List.mergeSort_perm _ _

/-- Witness for the amended C3 at the concrete two-append series. -/
theorem add_historical_data_window_sorted_witness :
    List.Sorted (fun a b : HistoricalRecord => a.date ≤ b.date)
      (add_historical_data 1000 [c3_r1] c3_r2)
    ∧ (1000 : ℤ) - 365 < c3_r1.date :=
  ⟨(add_historical_data_window_sorted 1000 [c3_r1] c3_r2).1,
   (add_historical_data_window_sorted 1000 [c3_r1] c3_r2).2.1 c3_r1
     (by rw [c3_eval2]; simp)⟩

/-! ### Claim C5: reconciliation metrics -/

/-- Live forecast for C5, predicting total demand 100. -/
def c5_forecastW : StoredForecast :=
  { product_id := "P5", predicted_demand := 100, accuracy_score := 0,
    actual_demand := none, forecast_error := none, percentage_error := none }

/-- C5: reconciliation computes `error = |predicted - actual|`,
`percentage_error = error / max(actual, 1) × 100` and
`accuracy = max(0, 100 - percentage_error)` (the latter two stored and
returned rounded to 2 decimals), writes them onto the stored forecast, and
returns them; for predicted 100 against actual 90 the returned percentage
error is 11.11 and the accuracy 88.89. -/
theorem reconcile_accuracy_metrics :
    (∀ (f : StoredForecast) (actual : ℚ),
      (update_forecast_accuracy f actual).2.forecast_error = |f.predicted_demand - actual|
      ∧ (update_forecast_accuracy f actual).2.percentage_error =
          round2 (|f.predicted_demand - actual| / max actual 1 * 100)
      ∧ (update_forecast_accuracy f actual).2.accuracy_score =
          round2 (max 0 (100 - |f.predicted_demand - actual| / max actual 1 * 100))
      ∧ (update_forecast_accuracy f actual).1.actual_demand = some actual
      ∧ (update_forecast_accuracy f actual).1.forecast_error =
          some ((update_forecast_accuracy f actual).2.forecast_error)
      ∧ (update_forecast_accuracy f actual).1.percentage_error =
          some ((update_forecast_accuracy f actual).2.percentage_error)
      ∧ (update_forecast_accuracy f actual).1.accuracy_score =
          (update_forecast_accuracy f actual).2.accuracy_score)
    ∧ (update_forecast_accuracy c5_forecastW 90).2.percentage_error = 1111 / 100
    ∧ (update_forecast_accuracy c5_forecastW 90).2.accuracy_score = 8889 / 100 := by
  refine ⟨fun f actual => ⟨rfl, rfl, rfl, rfl, rfl, rfl, rfl⟩, ?_, ?_⟩
  · show round2 (|c5_forecastW.predicted_demand - 90| / max (90 : ℚ) 1 * 100) = 1111 / 100
    have h : |c5_forecastW.predicted_demand - (90 : ℚ)| / max (90 : ℚ) 1 * 100 = 100 / 9 := by
      norm_num [c5_forecastW]
    rw [h]
    norm_num [round2, round_eq]
  · show round2 (max 0 (100 - |c5_forecastW.predicted_demand - 90| / max (90 : ℚ) 1 * 100))
      = 8889 / 100
    have h : max 0 (100 - |c5_forecastW.predicted_demand - (90 : ℚ)| / max (90 : ℚ) 1 * 100)
        = 800 / 9 := by
      norm_num [c5_forecastW]
    rw [h]
    norm_num [round2, round_eq]

/-! ### Claim C7: accuracy trend (code bug at exactly 5 reconciled forecasts) -/

/-- Reconciled forecast for C7 (positive accuracy score marks it reconciled). -/
def c7_reconW : StoredForecast :=
  { product_id := "P7", predicted_demand := 100, accuracy_score := 50,
    actual_demand := some 90, forecast_error := some 10, percentage_error := some 10 }

/-- C7 failing input: with exactly 5 reconciled forecasts in the store, the
divisor `min(5, len - 5)` of the prior-5 average is 0 and the code raises
`ZeroDivisionError` (modelled as `none`) instead of classifying the trend —
the claim that the query never errors is violated by the code. -/
theorem accuracy_trend_division_by_zero :
    ([c7_reconW, c7_reconW, c7_reconW, c7_reconW, c7_reconW].filter
        (fun f => decide (f.accuracy_score > 0))).length = 5
    ∧ calculate_accuracy_trend [c7_reconW, c7_reconW, c7_reconW, c7_reconW, c7_reconW]
        = none := by
  constructor
  · norm_num [c7_reconW]
  · rw [calculate_accuracy_trend]
    norm_num [c7_reconW]

/-! ### Claim C6: insufficient-data boundary of forecast generation -/

/-- C6: forecast generation fails with the insufficient-data error exactly
when the product has fewer than 7 historical records, and succeeds with a
forecast for every series of length at least 7, any demands, any horizon. -/
theorem forecast_insufficient_data_boundary (current_day : ℕ)
    (historical : List HistoricalRecord) (period : ℕ) :
    (historical.length < 7 →
      generate_demand_forecast current_day historical period =
        Except.error "Insufficient data for forecasting")
    ∧ (7 ≤ historical.length →
      ∃ f, generate_demand_forecast current_day historical period = Except.ok f) := by
  have hlen : (working_demands historical).length =
      historical.length - (historical.length - 30) := by
    simp [working_demands, lastN]
  constructor
  · intro h
    have hc : (working_demands historical).length < 7 := by omega
    simp only [generate_demand_forecast]
    rw [if_pos hc]
  · intro h
    have hc : ¬((working_demands historical).length < 7) := by omega
    simp only [generate_demand_forecast]
    rw [if_neg hc]
    exact ⟨_, rfl⟩

/-- Flat demand record for the C6/C8 demonstration series. -/
def c6_rec (d : ℤ) : HistoricalRecord :=
  { date := d, demand := 10, sales := 0, price := 0, promotions := false }

def c6_hist6 : List HistoricalRecord :=
  [c6_rec 0, c6_rec 1, c6_rec 2, c6_rec 3, c6_rec 4, c6_rec 5]

def c6_hist7 : List HistoricalRecord := c6_hist6 ++ [c6_rec 6]

/-- Witness for C6: 6 records fail, 7 records succeed. -/
theorem forecast_insufficient_data_boundary_witness :
    generate_demand_forecast 0 c6_hist6 5 = Except.error "Insufficient data for forecasting"
    ∧ (generate_demand_forecast 0 c6_hist7 5).toOption.isSome = true := by
  constructor
  · exact (forecast_insufficient_data_boundary 0 c6_hist6 5).1 (by norm_num [c6_hist6])
  · obtain ⟨f, hf⟩ := (forecast_insufficient_data_boundary 0 c6_hist7 5).2
      (by norm_num [c6_hist7, c6_hist6])
    rw [hf]
    rfl

/-! ### Claim C8: per-day breakdown invariants of generated forecasts -/

/-- Nonnegative inputs round to nonnegative two-decimal values. -/
theorem round2_nonneg (q : ℚ) (h : 0 ≤ q) : 0 ≤ round2 q := by
  rw [round2]
  apply div_nonneg _ (by norm_num)
  have h2 : (0 : ℤ) ≤ round (q * 100) := by
    rw [round_eq]
    apply Int.le_floor.mpr
    push_cast
    linarith
  exact_mod_cast h2

/-- Sums of whole-cent values are whole-cent values. -/
theorem sum_cents {l : List ℚ} (h : ∀ x ∈ l, ∃ k : ℤ, x = (k : ℚ) / 100) :
    ∃ K : ℤ, l.sum = (K : ℚ) / 100 := by
  induction l with
  | nil => exact ⟨0, by simp⟩
  | cons a t ih =>
    obtain ⟨k, hk⟩ := h a (List.mem_cons_self a t)
    obtain ⟨K, hK⟩ := ih (fun x hx => h x (List.mem_cons_of_mem a hx))
    refine ⟨k + K, ?_⟩
    rw [List.sum_cons, hk, hK]
    push_cast
    ring

/-- Whole-cent values are fixed by two-decimal rounding. -/
theorem round2_cents (k : ℤ) : round2 ((k : ℚ) / 100) = (k : ℚ) / 100 := by
  rw [round2, show ((k : ℚ) / 100 * 100) = (k : ℚ) by ring, round_intCast]

/-- C8: every forecast the engine returns has per-day values that are
non-negative whole-cent (2-decimal) roundings of the baseline/trend value
with the weekend multiplier and seasonal factor applied, and its predicted
total is the 2-decimal rounding of the breakdown sum — which, the summands
being whole cents already, equals the plain sum. -/
theorem forecast_breakdown_invariants (current_day : ℕ)
    (historical : List HistoricalRecord) (period : ℕ) (f : ForecastResult)
    (hok : generate_demand_forecast current_day historical period = Except.ok f) :
    f.daily_forecast = (List.range period).map (fun day =>
      { day_offset := day
        predicted_demand := round2 (daily_value (moving_average (working_demands historical))
          (trend_of (working_demands historical))
          (seasonal_factor_of current_day historical (working_demands historical))
          current_day day) })
    ∧ (∀ e ∈ f.daily_forecast, 0 ≤ e.predicted_demand
        ∧ ∃ k : ℤ, e.predicted_demand = (k : ℚ) / 100)
    ∧ f.predicted_demand =
        round2 ((f.daily_forecast.map (fun e => e.predicted_demand)).sum)
    ∧ f.predicted_demand = (f.daily_forecast.map (fun e => e.predicted_demand)).sum := by
  simp only [generate_demand_forecast] at hok
  by_cases hc : (working_demands historical).length < 7
  · rw [if_pos hc] at hok
    cases hok
  · rw [if_neg hc] at hok
    injection hok with h
    subst h
    refine ⟨rfl, ?_, rfl, ?_⟩
    · intro e he
      simp only [List.mem_map, List.mem_range] at he
      obtain ⟨day, _, hday⟩ := he
      rw [← hday]
      constructor
      · exact round2_nonneg _ (le_max_left 0 _)
      · exact ⟨round (daily_value (moving_average (working_demands historical))
          (trend_of (working_demands historical))
          (seasonal_factor_of current_day historical (working_demands historical))
          current_day day * 100), rfl⟩
    · show round2 _ = _
      have hmem : ∀ x ∈ ((List.range period).map (fun day =>
          round2 (daily_value (moving_average (working_demands historical))
            (trend_of (working_demands historical))
            (seasonal_factor_of current_day historical (working_demands historical))
            current_day day))), ∃ k : ℤ, x = (k : ℚ) / 100 := by
        intro x hx
        simp only [List.mem_map, List.mem_range] at hx
        obtain ⟨day, _, hday⟩ := hx
        exact ⟨_, hday.symm⟩
      obtain ⟨K, hK⟩ := sum_cents hmem
      rw [show ((List.range period).map (fun day =>
          ({ day_offset := day
             predicted_demand := round2 (daily_value
               (moving_average (working_demands historical))
               (trend_of (working_demands historical))
               (seasonal_factor_of current_day historical (working_demands historical))
               current_day day) } : DailyForecastEntry))).map
            (fun e => e.predicted_demand) =
          (List.range period).map (fun day =>
            round2 (daily_value (moving_average (working_demands historical))
              (trend_of (working_demands historical))
              (seasonal_factor_of current_day historical (working_demands historical))
              current_day day)) from by rw [List.map_map]; rfl]
      rw [hK, round2_cents]

/-- Extraction of the success payload of a forecast computation. -/
def c8_extract : Except String ForecastResult → ForecastResult
  | Except.ok f => f
  | Except.error _ =>
    { predicted_demand := 0, confidence_level := 0, trend_direction := "",
      seasonal_factor := 0, daily_forecast := [], model_used := "", accuracy_score := 0 }

def c8_forecastW : ForecastResult := c8_extract (generate_demand_forecast 0 c6_hist7 3)

/-- Witness for C8 on the concrete 7-record series over a 3-day horizon. -/
theorem forecast_breakdown_invariants_witness :
    c8_forecastW.predicted_demand =
      (c8_forecastW.daily_forecast.map (fun e => e.predicted_demand)).sum :=
  (forecast_breakdown_invariants 0 c6_hist7 3 c8_forecastW rfl).2.2.2
